import Mathlib

/-!
Shallow embedding of the KPiX-Lycoris link-layer transport core:
`src/generic/PgpCardG3Link.cpp` (asynchronous dual-thread variant, Scheme B
routing) and `src/generic/MultDestPgpMask.cpp` (synchronous variant, Scheme A
routing).  Words are modelled as `Nat` (the C code uses `uint32_t`; wherever a
C operation can wrap, the model reduces modulo 2^32 explicitly).  Buffers are
`List Nat`.  The external Link I/O primitive's results (received frames, send
return values) are inputs to the step functions.
-/

/-- A register transaction entry (the `Register` entity object): address,
data buffer, declared word count, and status word. -/
structure Register where
  address : Nat
  data : List Nat
  size : Nat
  status : Nat
deriving DecidableEq, Repr

/-- `memcpy(dst, src, n*4)` on word buffers: the first `n` words of `dst`
are overwritten with the first `n` words of `src`; the rest of `dst` keeps
its old contents. -/
def overwrite (dst src : List Nat) (n : Nat) : List Nat :=
  src.take n ++ dst.drop n

/-- Combined state of one `PgpCardG3Link` object: the shared member fields
(request/response counters, request entries, the shared register frame
buffer `regBuff_`, the rx data-source mask, error tallies and the data
queue) together with the transmit thread's local serviced counters
(`lastRunCnt` .. `lastDataCnt` in `ioHandler`). -/
structure G3State where
  runReqCnt : Nat
  regReqCnt : Nat
  cmdReqCnt : Nat
  dataReqCnt : Nat
  regRespCnt : Nat
  cmdRespCnt : Nat
  dataRespCnt : Nat
  lastRunCnt : Nat
  lastReqCnt : Nat
  lastCmdCnt : Nat
  lastDataCnt : Nat
  runOpCode : Nat
  cmdOpCode : Nat
  regReqWrite : Bool
  regReqEntry : Register
  dataReqAddr : Nat
  dataReqLength : Nat
  dataReqEntry : List Nat
  regBuff : List Nat
  dataSource : Nat
  errorCount : Nat
  unexpCount : Nat
  dataQueue : List (List Nat)
deriving DecidableEq, Repr

/-- An all-defaults `G3State`, used as a base for concrete test states. -/
def st0 : G3State :=
  { runReqCnt := 0, regReqCnt := 0, cmdReqCnt := 0, dataReqCnt := 0
    regRespCnt := 0, cmdRespCnt := 0, dataRespCnt := 0
    lastRunCnt := 0, lastReqCnt := 0, lastCmdCnt := 0, lastDataCnt := 0
    runOpCode := 0, cmdOpCode := 0
    regReqWrite := false
    regReqEntry := { address := 0, data := [], size := 0, status := 0 }
    dataReqAddr := 0, dataReqLength := 0, dataReqEntry := []
    regBuff := [], dataSource := 0
    errorCount := 0, unexpCount := 0, dataQueue := [] }

/-- Inbound classification (`PgpCardG3Link::rxHandler`):
`vcMaskRx = 1 << vc`, `laneMaskRx = 1 << lane`, `vcMask = dataSource_ & 0xF`,
`laneMask = (dataSource_ >> 4) & 0xFF`; the frame is data iff both one-hot
bits intersect the corresponding mask. -/
def isDataFrame (dataSource lane vc : Nat) : Bool :=
  ((1 <<< vc) &&& (dataSource &&& 0xF) != 0) &&
  ((1 <<< lane) &&& ((dataSource >>> 4) &&& 0xFF) != 0)

/-- Control-frame correlation (`PgpCardG3Link::rxHandler`, register branch):
the frame matches the outstanding request iff its first two words equal the
first two words of the last-transmitted frame `regBuff_` and its length minus
3 equals the request's declared size.  On a match: for a read, payload is
copied on zero status and the buffer is `memset` to `0xFF` bytes otherwise;
the status word (last received word) is always stored and `regRespCnt_` is
incremented.  On a mismatch `unexpCount_` is incremented. -/
def rxControl (s : G3State) (frame : List Nat) : G3State :=
  if frame.take 2 = s.regBuff.take 2 ∧ frame.length - 3 = s.regReqEntry.size then
    { s with
      regReqEntry :=
        { address := s.regReqEntry.address
          size := s.regReqEntry.size
          data :=
            if s.regReqWrite then s.regReqEntry.data
            else if frame.getD (frame.length - 1) 0 = 0 then
              overwrite s.regReqEntry.data (frame.drop 2) s.regReqEntry.size
            else
              overwrite s.regReqEntry.data
                (List.replicate s.regReqEntry.size 4294967295) s.regReqEntry.size
          status := frame.getD (frame.length - 1) 0 }
      regRespCnt := s.regRespCnt + 1 }
  else
    { s with unexpCount := s.unexpCount + 1 }

/-- One received frame processed by `PgpCardG3Link::rxHandler`: empty
receive is skipped; a short frame or one with an error flag set bumps
`errorCount_`; a data-classified frame is pushed (FIFO) on the data queue;
anything else goes to the register correlator. -/
def rxProcess (s : G3State) (frame : List Nat) (lane vc : Nat)
    (eofe fifoErr lengthErr : Bool) : G3State :=
  if frame.length = 0 then s
  else if frame.length < 4 ∨ eofe ∨ fifoErr ∨ lengthErr then
    { s with errorCount := s.errorCount + 1 }
  else if isDataFrame s.dataSource lane vc then
    { s with dataQueue := s.dataQueue ++ [frame] }
  else rxControl s frame

/-- The action taken by one pass of the transmit scheduler: which class was
serviced, with the frame, word count, lane and vc handed to the send
primitive; or an idle wait. -/
inductive TxAction where
  | sentRun (frame : List Nat) (len lane vc : Nat)
  | sentReg (frame : List Nat) (len lane vc : Nat)
  | sentCmd (frame : List Nat) (len lane vc : Nat)
  | sentData (frame : List Nat) (len lane vc : Nat)
  | idle
deriving DecidableEq, Repr

/-- Fuel-driven loop body for the one-hot de-bit-scan; the fuel only bounds
the iteration count, the loop itself halves the value each step. -/
def bitScanAux : Nat → Nat → Nat
  | 0, _ => 0
  | fuel + 1, x => if x ≤ 1 then 0 else bitScanAux fuel (x / 2) + 1

/-- One-hot de-bit-scan (`while (bits >>= 1) idx++;`): the number of right
shifts until the value reaches zero, starting from one shift.  `x` own value
is enough fuel, since the value at least halves each iteration. -/
def bitScan (x : Nat) : Nat := bitScanAux x x

/-- Unsigned 32-bit `size - 1` (the C expression `reg->size() - 1` on a
`uint32_t`). -/
def sizeMinusOne (size : Nat) : Nat :=
  (size + 4294967295) % 4294967296

/-- One pass of `PgpCardG3Link::ioHandler`'s priority ladder.  `sendRet` is
the value returned by `pgpcard_send` for the attempted send; the code
discards that value, so the state update cannot depend on it.  Priority is
run opcode, then register, then command, then data; command and data also
advance their response counters. -/
def ioCycle (sendRet : Int) (s : G3State) : TxAction × G3State :=
  if s.lastRunCnt ≠ s.runReqCnt then
    let frame := [0, s.runOpCode &&& 0xFF, 0, 0]
    let lane := (s.runOpCode >>> 12) &&& 0xF
    let vc := (s.runOpCode >>> 8) &&& 0xF
    (TxAction.sentRun frame 4 lane vc, { s with lastRunCnt := s.runReqCnt })
  else if s.lastReqCnt ≠ s.regReqCnt then
    let w1 := (if s.regReqWrite then 0x40000000 else 0) |||
              (s.regReqEntry.address &&& 0x00FFFFFF)
    let frame :=
      if s.regReqWrite then
        0 :: w1 :: (s.regReqEntry.data.take s.regReqEntry.size ++ [0])
      else
        [0, w1, sizeMinusOne s.regReqEntry.size, 0]
    let len := if s.regReqWrite then s.regReqEntry.size + 3 else 4
    let lane := (s.regReqEntry.address >>> 28) &&& 0xF
    let vc := (s.regReqEntry.address >>> 24) &&& 0xF
    (TxAction.sentReg frame len lane vc,
     { s with regBuff := frame, lastReqCnt := s.regReqCnt })
  else if s.lastCmdCnt ≠ s.cmdReqCnt then
    let frame := [0, s.cmdOpCode &&& 0xFF, 0, 0]
    let lane := (s.cmdOpCode >>> 12) &&& 0xF
    let vc := (s.cmdOpCode >>> 8) &&& 0xF
    (TxAction.sentCmd frame 4 lane vc,
     { s with lastCmdCnt := s.cmdReqCnt, cmdRespCnt := s.cmdRespCnt + 1 })
  else if s.lastDataCnt ≠ s.dataReqCnt then
    let laneBits := (s.dataReqAddr >>> 4) &&& 0xF
    let vcBits := s.dataReqAddr &&& 0xF
    (TxAction.sentData s.dataReqEntry s.dataReqLength (bitScan laneBits) (bitScan vcBits),
     { s with lastDataCnt := s.dataReqCnt, dataRespCnt := s.dataRespCnt + 1 })
  else (TxAction.idle, s)

/-! ## Synchronous variant: `MultDestPgpMask` (Scheme A routing) -/

/-- Scheme A lane nibble for register transactions: `(config >> 12) & 0xf`. -/
def regLaneOf (config : Nat) : Nat := (config >>> 12) &&& 0xf

/-- Scheme A vc nibble for register transactions: `(config >> 8) & 0xf`. -/
def regVcOf (config : Nat) : Nat := (config >>> 8) &&& 0xf

/-- Scheme A lane nibble for commands: `(config >> 20) & 0xf`. -/
def cmdLaneOf (config : Nat) : Nat := (config >>> 20) &&& 0xf

/-- Scheme A vc nibble for commands: `(config >> 16) & 0xf`. -/
def cmdVcOf (config : Nat) : Nat := (config >>> 16) &&& 0xf

/-- Scheme A lane nibble for data: `(config >> 28) & 0xf`. -/
def dataLaneOf (config : Nat) : Nat := (config >>> 28) &&& 0xf

/-- Scheme A vc nibble for data: `(config >> 24) & 0xf`. -/
def dataVcOf (config : Nat) : Nat := (config >>> 24) &&& 0xf

/-- Packing six routing nibbles into a Scheme A configuration word at the
documented positions (register vc 11:8, register lane 15:12, command vc
19:16, command lane 23:20, data vc 27:24, data lane 31:28). -/
def packConfigA (regLane regVc cmdLane cmdVc dataLane dataVc : Nat) : Nat :=
  regVc * 256 + regLane * 4096 + cmdVc * 65536 + cmdLane * 1048576 +
  dataVc * 16777216 + dataLane * 268435456

/-- `MultDestPgpMask::transmit`, register cases (`MultTypeRegisterWrite` /
`MultTypeRegisterRead`): builds the frame, its word count and the Scheme A
routing pair.  Word 1 carries the write flag (bit 30) OR'd with the address
shifted right by 2 and masked to 30 bits. -/
def mdpTransmitReg (isWrite : Bool) (reg : Register) (context config : Nat) :
    List Nat × Nat × Nat × Nat :=
  let lane := (config >>> 12) &&& 0xf
  let vc := (config >>> 8) &&& 0xf
  let w1 := (if isWrite then 0x40000000 else 0) ||| ((reg.address >>> 2) &&& 0x3FFFFFFF)
  if isWrite then
    (context :: w1 :: (reg.data.take reg.size ++ [0]), reg.size + 3, lane, vc)
  else
    ([context, w1, sizeMinusOne reg.size, 0], 4, lane, vc)

/-- The send-retry loop of `MultDestPgpMask::transmit`: `pgpcard_send` is
attempted, and while the result is negative it is attempted again,
unconditionally.  `oracle k` is the result the send primitive returns on the
`k`-th attempt; `fuel` bounds the number of attempts this model unrolls
(`none` means the loop was still running when the fuel ran out). -/
def retryLoop (oracle : Nat → Int) : Nat → Nat → Option Int
  | 0, _ => none
  | fuel + 1, k =>
    let r := oracle k
    if r < 0 then retryLoop oracle fuel (k + 1) else some r

/-- The post-loop return-value adjustment of `MultDestPgpMask::transmit`:
`if (ret > 0) ret = ret * 4; return ret;`. -/
def mdpTxRet (r : Int) : Int := if r > 0 then r * 4 else r

/-- Result of one call to `MultDestPgpMask::receive`. -/
inductive RecvOut where
  | noData
  | errorOut
  | dataOut (frame : List Nat) (retBytes : Nat)
  | regOut (isWrite : Bool) (context retBytes : Nat)
deriving DecidableEq, Repr

/-- The packed data-source word `receive` builds from the received lane and
vc: `(lane << 28) & 0xF0000000 + (vc << 24) & 0x0F000000`. -/
def rxDataSourceWord (lane vc : Nat) : Nat :=
  ((lane <<< 28) &&& 0xF0000000) + ((vc <<< 24) &&& 0x0F000000)

/-- `MultDestPgpMask::receive`.  `isDS` is the inherited `isDataSource`
predicate (defined outside this file's sources); `rxReg` is the internal
`rxRegister_` object before the call.  Returns the call result together with
the `rxRegister_` state after the call.  A zero-length receive is no-data; a
short frame or error flag returns the error result; a data-classified frame
is handed out verbatim; otherwise the frame is decoded as a register
response: the address is set from word 1 shifted left by 2 (32-bit), a
response longer than the register's size is rejected with the error result,
and otherwise `ret - 3` payload words and the trailing status word are
stored. -/
def mdpReceive (isDS : Nat → Bool) (rxReg : Register) (frame : List Nat)
    (lane vc : Nat) (eofe fifoErr lengthErr : Bool) : RecvOut × Register :=
  let ret := frame.length
  if ret = 0 then (RecvOut.noData, rxReg)
  else if ret < 4 ∨ eofe ∨ fifoErr ∨ lengthErr then (RecvOut.errorOut, rxReg)
  else if isDS (rxDataSourceWord lane vc) then (RecvOut.dataOut frame (ret * 4), rxReg)
  else
    let w1 := frame.getD 1 0
    let reg1 := { rxReg with address := (w1 <<< 2) % 4294967296 }
    let isW := w1 &&& 0x40000000 != 0
    if rxReg.size < ret - 3 then (RecvOut.errorOut, reg1)
    else
      (RecvOut.regOut isW (frame.getD 0 0) (ret * 4),
       { reg1 with data := overwrite reg1.data (frame.drop 2) (ret - 3),
                   status := frame.getD (ret - 1) 0 })

/-! ## Claims -/

/-- C1, counterexample: with a run-control request pending
(`runReqCnt = 1`, `lastRunCnt = 0`) and the send primitive reporting failure
(return `-1`), the scheduler attempts the run class and nevertheless advances
its serviced counter from 0 to 1 — the request does not remain pending. -/
theorem C1_counterexample :
    (ioCycle (-1) { st0 with runReqCnt := 1 }).1 = TxAction.sentRun [0, 0, 0, 0] 4 0 0 ∧
    ({ st0 with runReqCnt := 1 } : G3State).lastRunCnt = 0 ∧
    ((ioCycle (-1) { st0 with runReqCnt := 1 }).2).lastRunCnt = 1 := by
  decide

/-- C1, amended: the asynchronous scheduler ignores the send primitive's
return value, so a cycle with a failed send behaves exactly like one with a
successful send: the serviced counter of the attempted class is advanced to
its request counter, and the failed frame is dropped rather than retried. -/
theorem C1_send_failure_still_services (r : Int) (s : G3State) (hr : r < 0) :
    ioCycle r s = ioCycle 0 s ∧
    (s.lastRunCnt ≠ s.runReqCnt → ((ioCycle r s).2).lastRunCnt = s.runReqCnt) ∧
    (s.lastRunCnt = s.runReqCnt → s.lastReqCnt ≠ s.regReqCnt →
      ((ioCycle r s).2).lastReqCnt = s.regReqCnt) ∧
    (s.lastRunCnt = s.runReqCnt → s.lastReqCnt = s.regReqCnt →
      s.lastCmdCnt ≠ s.cmdReqCnt → ((ioCycle r s).2).lastCmdCnt = s.cmdReqCnt) ∧
    (s.lastRunCnt = s.runReqCnt → s.lastReqCnt = s.regReqCnt →
      s.lastCmdCnt = s.cmdReqCnt → s.lastDataCnt ≠ s.dataReqCnt →
      ((ioCycle r s).2).lastDataCnt = s.dataReqCnt) := by
  refine ⟨rfl, ?_, ?_, ?_, ?_⟩
  · intro h1
    simp [ioCycle, h1]
  · intro h1 h2
    simp [ioCycle, h1, h2]
  · intro h1 h2 h3
    simp [ioCycle, h1, h2, h3]
  · intro h1 h2 h3 h4
    simp [ioCycle, h1, h2, h3, h4]

/-- Witness for `C1_send_failure_still_services` at send result `-1` and a
state with a pending run-control request. -/
theorem C1_send_failure_still_services_witness :
    ((-1 : Int) < 0) ∧
    ((ioCycle (-1) { st0 with runReqCnt := 1 }).2).lastRunCnt =
      ({ st0 with runReqCnt := 1 } : G3State).runReqCnt :=
  ⟨by decide,
   (C1_send_failure_still_services (-1) { st0 with runReqCnt := 1 } (by decide)).2.1
     (by decide)⟩

/-- C2: when the correlator gets a control frame whose first two words equal
the last-transmitted request header and whose length minus 3 equals the
outstanding request's declared size, then on a read it copies the payload
words into the request's data buffer when the status word (last received
word) is zero and fills the buffer entirely with `0xFFFFFFFF` otherwise; in
every case it stores the status word exactly and advances the register
response counter by exactly 1. -/
theorem C2_matched_response (s : G3State) (frame : List Nat)
    (hm : frame.take 2 = s.regBuff.take 2)
    (hs : frame.length - 3 = s.regReqEntry.size)
    (hbuf : s.regReqEntry.data.length = s.regReqEntry.size) :
    (rxControl s frame).regRespCnt = s.regRespCnt + 1 ∧
    (rxControl s frame).regReqEntry.status = frame.getD (frame.length - 1) 0 ∧
    (s.regReqWrite = false → frame.getD (frame.length - 1) 0 = 0 →
      (rxControl s frame).regReqEntry.data = (frame.drop 2).take s.regReqEntry.size) ∧
    (s.regReqWrite = false → frame.getD (frame.length - 1) 0 ≠ 0 →
      (rxControl s frame).regReqEntry.data =
        List.replicate s.regReqEntry.size 4294967295) := by
  have hc : frame.take 2 = s.regBuff.take 2 ∧ frame.length - 3 = s.regReqEntry.size :=
    ⟨hm, hs⟩
  unfold rxControl
  rw [if_pos hc]
  refine ⟨rfl, rfl, ?_, ?_⟩
  · intro hw hz
    rw [hw]
    rw [if_neg (by simp)]
    rw [if_pos hz]
    simp [overwrite, List.drop_eq_nil_of_le hbuf.le]
  · intro hw hz
    rw [hw]
    rw [if_neg (by simp)]
    rw [if_neg hz]
    simp [overwrite, List.drop_eq_nil_of_le hbuf.le, List.take_replicate]

/-- Witness for `C2_matched_response`: a matched 5-word read response with
nonzero status fills the 2-word buffer with the sentinel and stores the
status. -/
theorem C2_matched_response_witness :
    (rxControl { st0 with regBuff := [0, 0x400], regReqEntry := ⟨0x400, [1, 2], 2, 0⟩ }
      [0, 0x400, 10, 20, 5]).regRespCnt = 1 ∧
    (rxControl { st0 with regBuff := [0, 0x400], regReqEntry := ⟨0x400, [1, 2], 2, 0⟩ }
      [0, 0x400, 10, 20, 5]).regReqEntry.status = [0, 0x400, 10, 20, 5].getD 4 0 ∧
    (rxControl { st0 with regBuff := [0, 0x400], regReqEntry := ⟨0x400, [1, 2], 2, 0⟩ }
      [0, 0x400, 10, 20, 5]).regReqEntry.data = List.replicate 2 4294967295 := by
  have h := C2_matched_response
    { st0 with regBuff := [0, 0x400], regReqEntry := ⟨0x400, [1, 2], 2, 0⟩ }
    [0, 0x400, 10, 20, 5] (by decide) (by decide) (by decide)
  exact ⟨h.1, h.2.1, h.2.2.2 (by decide) (by decide)⟩

/-- C3: a register write of size `S` encodes (Scheme A) to header word 0 =
context, word 1 = bit 30 OR'd with `(address >> 2) & 0x3FFFFFFF`, the `S`
payload words and one trailing zero pad word — total length `S + 3`; a read
encodes to 4 words with word 2 = `S - 1` and word 3 = 0; under Scheme B
word 1 is the write flag OR'd with the low 24 address bits, unshifted.  The
concrete Scheme A write to `0x00001000` with data `[0xAAAA, 0xBBBB]` yields
`[context, 0x40000400, 0xAAAA, 0xBBBB, 0]`. -/
theorem C3_register_frame_encoding (reg : Register) (context config : Nat)
    (hlen : reg.data.length = reg.size) (hpos : 1 ≤ reg.size)
    (hsz : reg.size < 4294967296) :
    (mdpTransmitReg true reg context config).1 =
      context :: (0x40000000 ||| ((reg.address >>> 2) &&& 0x3FFFFFFF)) :: (reg.data ++ [0]) ∧
    (mdpTransmitReg true reg context config).1.length = reg.size + 3 ∧
    (mdpTransmitReg true reg context config).2.1 = reg.size + 3 ∧
    (mdpTransmitReg false reg context config).1 =
      [context, (reg.address >>> 2) &&& 0x3FFFFFFF, reg.size - 1, 0] ∧
    (∀ s : G3State, s.lastRunCnt = s.runReqCnt → s.lastReqCnt ≠ s.regReqCnt → ∀ r : Int,
      ((ioCycle r s).2).regBuff.getD 1 0 =
        ((if s.regReqWrite then 0x40000000 else 0) |||
          (s.regReqEntry.address &&& 0x00FFFFFF))) ∧
    (∀ c cf : Nat,
      (mdpTransmitReg true ⟨0x00001000, [0xAAAA, 0xBBBB], 2, 0⟩ c cf).1 =
        [c, 0x40000400, 0xAAAA, 0xBBBB, 0]) := by
  refine ⟨?_, ?_, rfl, ?_, ?_, ?_⟩
  · simp [mdpTransmitReg, ← hlen, List.take_length]
  · simp [mdpTransmitReg, List.length_take, hlen]
  · have : sizeMinusOne reg.size = reg.size - 1 := by
      unfold sizeMinusOne
      omega
    simp [mdpTransmitReg, this]
  · intro s h1 h2 r
    simp only [ioCycle, if_neg (by simp [h1] : ¬s.lastRunCnt ≠ s.runReqCnt), if_pos h2]
    by_cases hw : s.regReqWrite <;> simp [hw]
  · intro c cf
    rfl

/-- Witness for `C3_register_frame_encoding` at the spec's concrete write
transaction (address `0x00001000`, data `[0xAAAA, 0xBBBB]`, size 2). -/
theorem C3_register_frame_encoding_witness :
    (mdpTransmitReg true ⟨0x00001000, [0xAAAA, 0xBBBB], 2, 0⟩ 7 0).1 =
      7 :: (0x40000000 ||| ((0x00001000 >>> 2) &&& 0x3FFFFFFF)) :: ([0xAAAA, 0xBBBB] ++ [0]) ∧
    (mdpTransmitReg true ⟨0x00001000, [0xAAAA, 0xBBBB], 2, 0⟩ 7 0).1.length = 2 + 3 :=
  let h := C3_register_frame_encoding ⟨0x00001000, [0xAAAA, 0xBBBB], 2, 0⟩ 7 0
    (by decide) (by decide) (by decide)
  ⟨h.1, h.2.1⟩

/-- C4, counterexample: with the internal receive register declared at size
4, a 4-word register response (`length - 3 = 1 ≠ 4`) is NOT discarded: it is
delivered as a register receive, its one payload word overwrites the front
of the data buffer and its trailing word becomes the status.  Furthermore a
3-word response (body length ≤ 3) yields the error result `-1` — the same
result as a link-error frame — rather than being discarded without an error
report. -/
theorem C4_counterexample :
    (mdpReceive (fun _ => false) ⟨0, [5, 6, 7, 8], 4, 9⟩ [111, 0, 77, 3]
        0 0 false false false).1 = RecvOut.regOut false 111 16 ∧
    ((mdpReceive (fun _ => false) ⟨0, [5, 6, 7, 8], 4, 9⟩ [111, 0, 77, 3]
        0 0 false false false).2).data = [77, 6, 7, 8] ∧
    ((mdpReceive (fun _ => false) ⟨0, [5, 6, 7, 8], 4, 9⟩ [111, 0, 77, 3]
        0 0 false false false).2).status = 3 ∧
    (mdpReceive (fun _ => false) ⟨0, [5, 6, 7, 8], 4, 9⟩ [1, 2, 3]
        0 0 false false false).1 = RecvOut.errorOut := by
  decide

/-- C4, amended: the synchronous receive rejects a register response with
the error result (the `-1` return, shared with link errors) when its length
is below 4 words or when `length - 3` exceeds the receive register's
declared size; every response with `length - 3` at most the declared size is
delivered, its `length - 3` payload words (indices 2 .. length-2) written to
the front of the data buffer and its trailing word stored as the status. -/
theorem C4_amended (isDS : Nat → Bool) (rxReg : Register) (frame : List Nat)
    (lane vc : Nat) :
    (0 < frame.length → frame.length < 4 → ∀ e f le,
      (mdpReceive isDS rxReg frame lane vc e f le).1 = RecvOut.errorOut) ∧
    (4 ≤ frame.length → isDS (rxDataSourceWord lane vc) = false →
      rxReg.size < frame.length - 3 →
      (mdpReceive isDS rxReg frame lane vc false false false).1 = RecvOut.errorOut) ∧
    (4 ≤ frame.length → isDS (rxDataSourceWord lane vc) = false →
      frame.length - 3 ≤ rxReg.size →
      (mdpReceive isDS rxReg frame lane vc false false false).1 =
        RecvOut.regOut (frame.getD 1 0 &&& 0x40000000 != 0) (frame.getD 0 0)
          (frame.length * 4) ∧
      ((mdpReceive isDS rxReg frame lane vc false false false).2).data =
        (frame.drop 2).take (frame.length - 3) ++ rxReg.data.drop (frame.length - 3) ∧
      ((mdpReceive isDS rxReg frame lane vc false false false).2).status =
        frame.getD (frame.length - 1) 0) := by
  refine ⟨?_, ?_, ?_⟩
  · intro h0 h4 e f le
    unfold mdpReceive
    rw [if_neg (by omega), if_pos (Or.inl h4)]
  · intro h4 hds hover
    unfold mdpReceive
    rw [if_neg (by omega), if_neg (by simp; omega), if_neg (by simp [hds]),
      if_pos hover]
  · intro h4 hds hle
    unfold mdpReceive
    rw [if_neg (by omega), if_neg (by simp; omega), if_neg (by simp [hds]),
      if_neg (by omega)]
    exact ⟨rfl, rfl, rfl⟩

/-- Witness for `C4_amended`: a valid 5-word read response against a size-2
receive register is delivered with payload and status stored. -/
theorem C4_amended_witness :
    (mdpReceive (fun _ => false) ⟨0, [5, 6], 2, 9⟩ [1, 0, 10, 20, 0]
        0 0 false false false).1 = RecvOut.regOut false 1 20 ∧
    ((mdpReceive (fun _ => false) ⟨0, [5, 6], 2, 9⟩ [1, 0, 10, 20, 0]
        0 0 false false false).2).data = [10, 20] ∧
    ((mdpReceive (fun _ => false) ⟨0, [5, 6], 2, 9⟩ [1, 0, 10, 20, 0]
        0 0 false false false).2).status = 0 := by
  have h := (C4_amended (fun _ => false) ⟨0, [5, 6], 2, 9⟩ [1, 0, 10, 20, 0] 0 0).2.2
    (by decide) rfl (by decide)
  exact ⟨h.1, h.2.1, h.2.2⟩

/-- C5: a control frame that does not match the outstanding register request
(header or size mismatch) bumps `unexpCount_` by exactly 1 and changes
nothing else: the response counter, the request entry, the tallies and the
data queue are untouched and the frame is not delivered. -/
theorem C5_unexpected_frame (s : G3State) (frame : List Nat) (lane vc : Nat)
    (h4 : 4 ≤ frame.length)
    (hd : isDataFrame s.dataSource lane vc = false)
    (hm : ¬(frame.take 2 = s.regBuff.take 2 ∧ frame.length - 3 = s.regReqEntry.size)) :
    rxProcess s frame lane vc false false false =
      { s with unexpCount := s.unexpCount + 1 } := by
  unfold rxProcess
  rw [if_neg (by omega), if_neg (by simp; omega), if_neg (by simp [hd])]
  unfold rxControl
  rw [if_neg hm]

/-- Witness for `C5_unexpected_frame`: a header-mismatched 4-word control
frame only bumps the unexpected-frame tally. -/
theorem C5_unexpected_frame_witness :
    rxProcess { st0 with regBuff := [0, 0x400] } [1, 2, 3, 4] 0 0 false false false =
      { ({ st0 with regBuff := [0, 0x400] } : G3State) with unexpCount := 1 } :=
  C5_unexpected_frame { st0 with regBuff := [0, 0x400] } [1, 2, 3, 4] 0 0
    (by decide) (by decide) (by decide)

/-- C6: an error-free frame of at least 4 words is enqueued as data exactly
when its one-hot vc bit intersects the 4-bit vc mask (dataSource bits 0-3)
and its one-hot lane bit intersects the 8-bit lane mask (dataSource bits
4-11); otherwise it is handed to the register correlator regardless of its
content.  With vc mask `0b0001` and lane mask `0b00000100` (dataSource
`0x41`), lane 2 / vc 0 is data and lane 2 / vc 1 is control. -/
theorem C6_classification (s : G3State) (frame : List Nat) (lane vc : Nat)
    (h4 : 4 ≤ frame.length) :
    (isDataFrame s.dataSource lane vc = true →
      rxProcess s frame lane vc false false false =
        { s with dataQueue := s.dataQueue ++ [frame] }) ∧
    (isDataFrame s.dataSource lane vc = false →
      rxProcess s frame lane vc false false false = rxControl s frame) ∧
    isDataFrame 0x41 2 0 = true ∧
    isDataFrame 0x41 2 1 = false := by
  refine ⟨?_, ?_, by decide, by decide⟩
  · intro hd
    unfold rxProcess
    rw [if_neg (by omega), if_neg (by simp; omega), if_pos hd]
  · intro hd
    unfold rxProcess
    rw [if_neg (by omega), if_neg (by simp; omega), if_neg (by simp [hd])]

/-- Witness for `C6_classification`: with dataSource `0x41` a lane-2/vc-0
frame is enqueued on the data queue. -/
theorem C6_classification_witness :
    rxProcess { st0 with dataSource := 0x41 } [1, 2, 3, 4] 2 0 false false false =
      { ({ st0 with dataSource := 0x41 } : G3State) with dataQueue := [[1, 2, 3, 4]] } :=
  (C6_classification { st0 with dataSource := 0x41 } [1, 2, 3, 4] 2 0 (by decide)).1
    (by decide)

/-- C7: on a scheduler pass with at least one pending class, exactly the
highest-priority pending class (run-control > register > command > data) is
serviced: its serviced counter is matched to its request counter, the
command and data classes additionally advance their response counters by 1,
and nothing else in the state changes (in particular the run-control and
register classes advance no response counter). -/
theorem C7_priority_scheduler (r : Int) (s : G3State) :
    (s.lastRunCnt ≠ s.runReqCnt →
      ∃ fr l v, ioCycle r s =
        (TxAction.sentRun fr 4 l v, { s with lastRunCnt := s.runReqCnt })) ∧
    (s.lastRunCnt = s.runReqCnt → s.lastReqCnt ≠ s.regReqCnt →
      ∃ fr len l v, ioCycle r s =
        (TxAction.sentReg fr len l v,
         { s with regBuff := fr, lastReqCnt := s.regReqCnt })) ∧
    (s.lastRunCnt = s.runReqCnt → s.lastReqCnt = s.regReqCnt →
      s.lastCmdCnt ≠ s.cmdReqCnt →
      ∃ fr l v, ioCycle r s =
        (TxAction.sentCmd fr 4 l v,
         { s with lastCmdCnt := s.cmdReqCnt, cmdRespCnt := s.cmdRespCnt + 1 })) ∧
    (s.lastRunCnt = s.runReqCnt → s.lastReqCnt = s.regReqCnt →
      s.lastCmdCnt = s.cmdReqCnt → s.lastDataCnt ≠ s.dataReqCnt →
      ∃ fr len l v, ioCycle r s =
        (TxAction.sentData fr len l v,
         { s with lastDataCnt := s.dataReqCnt, dataRespCnt := s.dataRespCnt + 1 })) := by
  refine ⟨?_, ?_, ?_, ?_⟩
  · intro h1
    exact ⟨_, _, _, by unfold ioCycle; rw [if_pos h1]⟩
  · intro h1 h2
    exact ⟨_, _, _, _, by unfold ioCycle; rw [if_neg (by simp [h1]), if_pos h2]⟩
  · intro h1 h2 h3
    exact ⟨_, _, _,
      by unfold ioCycle; rw [if_neg (by simp [h1]), if_neg (by simp [h2]), if_pos h3]⟩
  · intro h1 h2 h3 h4
    exact ⟨_, _, _, _,
      by unfold ioCycle
         rw [if_neg (by simp [h1]), if_neg (by simp [h2]), if_neg (by simp [h3]),
           if_pos h4]⟩

/-- Witness for `C7_priority_scheduler`: with only a command request pending
the command class is serviced and its response counter advances. -/
theorem C7_priority_scheduler_witness :
    ∃ fr l v, ioCycle 0 { st0 with cmdReqCnt := 1 } =
      (TxAction.sentCmd fr 4 l v,
       { ({ st0 with cmdReqCnt := 1 } : G3State) with lastCmdCnt := 1, cmdRespCnt := 1 }) :=
  (C7_priority_scheduler 0 { st0 with cmdReqCnt := 1 }).2.2.1 rfl rfl (by decide)

/-- C8: packing any lane, vc pair (each in 0..15) for each of the three
transaction classes into the Scheme A configuration word and extracting the
class's nibble pair by the transmit path's shift-and-mask returns the
original pair — encode-then-decode is the identity. -/
theorem C8_schemeA_roundtrip (rl rv cl cv dl dv : Nat)
    (h1 : rl < 16) (h2 : rv < 16) (h3 : cl < 16) (h4 : cv < 16)
    (h5 : dl < 16) (h6 : dv < 16) :
    regLaneOf (packConfigA rl rv cl cv dl dv) = rl ∧
    regVcOf (packConfigA rl rv cl cv dl dv) = rv ∧
    cmdLaneOf (packConfigA rl rv cl cv dl dv) = cl ∧
    cmdVcOf (packConfigA rl rv cl cv dl dv) = cv ∧
    dataLaneOf (packConfigA rl rv cl cv dl dv) = dl ∧
    dataVcOf (packConfigA rl rv cl cv dl dv) = dv := by
  have hand : ∀ x : Nat, x &&& 15 = x % 16 := fun x => by
    have hx := Nat.and_pow_two_sub_one_eq_mod x 4
    norm_num at hx
    exact hx
  refine ⟨?_, ?_, ?_, ?_, ?_, ?_⟩ <;>
    · simp only [regLaneOf, regVcOf, cmdLaneOf, cmdVcOf, dataLaneOf, dataVcOf,
        packConfigA, Nat.shiftRight_eq_div_pow, hand]
      norm_num
      omega

/-- Witness for `C8_schemeA_roundtrip` at the pairs (3,5), (7,9), (11,13). -/
theorem C8_schemeA_roundtrip_witness :
    regLaneOf (packConfigA 3 5 7 9 11 13) = 3 ∧
    regVcOf (packConfigA 3 5 7 9 11 13) = 5 ∧
    cmdLaneOf (packConfigA 3 5 7 9 11 13) = 7 ∧
    cmdVcOf (packConfigA 3 5 7 9 11 13) = 9 ∧
    dataLaneOf (packConfigA 3 5 7 9 11 13) = 11 ∧
    dataVcOf (packConfigA 3 5 7 9 11 13) = 13 :=
  C8_schemeA_roundtrip 3 5 7 9 11 13 (by decide) (by decide) (by decide)
    (by decide) (by decide) (by decide)

/-- If the send primitive succeeds on attempt `k + m`, then `m + 1` units of
fuel starting from attempt `k` are enough for the retry loop to stop, and it
stops with a non-negative result. -/
theorem retryLoop_reaches (oracle : Nat → Int) :
    ∀ m k, 0 ≤ oracle (k + m) →
      ∃ r, retryLoop oracle (m + 1) k = some r ∧ 0 ≤ r := by
  intro m
  induction m with
  | zero =>
    intro k hk
    rw [Nat.add_zero] at hk
    refine ⟨oracle k, ?_, hk⟩
    show (if oracle k < 0 then retryLoop oracle 0 (k + 1) else some (oracle k)) =
      some (oracle k)
    rw [if_neg (not_lt.mpr hk)]
  | succ m ih =>
    intro k hk
    by_cases hneg : oracle k < 0
    · have hk1 : 0 ≤ oracle (k + 1 + m) := by
        rw [show k + 1 + m = k + (m + 1) from by omega]
        exact hk
      obtain ⟨r, hr, hpos⟩ := ih (k + 1) hk1
      refine ⟨r, ?_, hpos⟩
      show (if oracle k < 0 then retryLoop oracle (m + 1) (k + 1) else some (oracle k)) =
        some r
      rw [if_pos hneg]
      exact hr
    · refine ⟨oracle k, ?_, not_lt.mp hneg⟩
      show (if oracle k < 0 then retryLoop oracle (m + 1) (k + 1) else some (oracle k)) =
        some (oracle k)
      rw [if_neg hneg]

/-- Whenever the retry loop stops, its result is non-negative. -/
theorem retryLoop_nonneg (oracle : Nat → Int) :
    ∀ fuel k r, retryLoop oracle fuel k = some r → 0 ≤ r := by
  intro fuel
  induction fuel with
  | zero => intro k r h; exact absurd h (by simp [retryLoop])
  | succ fuel ih =>
    intro k r h
    unfold retryLoop at h
    by_cases hneg : oracle k < 0
    · rw [if_pos hneg] at h
      exact ih (k + 1) r h
    · rw [if_neg hneg] at h
      have : oracle k = r := by simpa using h
      omega

/-- C9: the synchronous transmit retries a failed send immediately,
unconditionally and without cap; under the assumption that some attempt
returns a non-negative value the loop terminates, and any value it returns
is non-negative, so after the `ret * 4` byte-count adjustment the caller
never sees a negative error value. -/
theorem C9_retry_until_success (oracle : Nat → Int) (h : ∃ n, 0 ≤ oracle n) :
    (∃ fuel r, retryLoop oracle fuel 0 = some r ∧ 0 ≤ r) ∧
    (∀ fuel k r, retryLoop oracle fuel k = some r → 0 ≤ mdpTxRet r) := by
  constructor
  · obtain ⟨n, hn⟩ := h
    obtain ⟨r, hr, hpos⟩ := retryLoop_reaches oracle n 0 (by simpa using hn)
    exact ⟨n + 1, r, hr, hpos⟩
  · intro fuel k r hr
    have hpos := retryLoop_nonneg oracle fuel k r hr
    unfold mdpTxRet
    by_cases hgt : r > 0
    · rw [if_pos hgt]; omega
    · rw [if_neg hgt]; exact hpos

/-- Witness for `C9_retry_until_success`: a send primitive that fails twice
and then returns 8. -/
theorem C9_retry_until_success_witness :
    (∃ fuel r, retryLoop (fun n => if n < 2 then -1 else 8) fuel 0 = some r ∧ 0 ≤ r) ∧
    (∀ fuel k r, retryLoop (fun n => if n < 2 then -1 else 8) fuel k = some r →
      0 ≤ mdpTxRet r) :=
  C9_retry_until_success (fun n => if n < 2 then -1 else 8) ⟨2, by decide⟩

/-- C10: the synchronous receive delivers every accepted register response —
write acknowledgments (word 1 bit 30 set) included — by unconditionally
writing the `length - 3` payload words into the register's data buffer and
storing the trailing word as its status; the asynchronous correlator, in
contrast, leaves the data buffer untouched for a matched response to a write
request. -/
theorem C10_sync_write_ack_copies (isDS : Nat → Bool) (rxReg : Register)
    (frame : List Nat) (lane vc : Nat)
    (h4 : 4 ≤ frame.length)
    (hds : isDS (rxDataSourceWord lane vc) = false)
    (hsz : frame.length - 3 ≤ rxReg.size)
    (hw : frame.getD 1 0 &&& 0x40000000 ≠ 0) :
    (mdpReceive isDS rxReg frame lane vc false false false).1 =
      RecvOut.regOut true (frame.getD 0 0) (frame.length * 4) ∧
    ((mdpReceive isDS rxReg frame lane vc false false false).2).data =
      (frame.drop 2).take (frame.length - 3) ++ rxReg.data.drop (frame.length - 3) ∧
    ((mdpReceive isDS rxReg frame lane vc false false false).2).status =
      frame.getD (frame.length - 1) 0 ∧
    (∀ s : G3State, s.regReqWrite = true →
      frame.take 2 = s.regBuff.take 2 → frame.length - 3 = s.regReqEntry.size →
      (rxControl s frame).regReqEntry.data = s.regReqEntry.data) := by
  refine ⟨?_, ?_, ?_, ?_⟩
  · unfold mdpReceive
    rw [if_neg (by omega), if_neg (by simp; omega), if_neg (by simp [hds]),
      if_neg (by omega)]
    have hb : (frame.getD 1 0 &&& 0x40000000 != 0) = true := bne_iff_ne.mpr hw
    rw [hb]
  · unfold mdpReceive
    rw [if_neg (by omega), if_neg (by simp; omega), if_neg (by simp [hds]),
      if_neg (by omega)]
    rfl
  · unfold mdpReceive
    rw [if_neg (by omega), if_neg (by simp; omega), if_neg (by simp [hds]),
      if_neg (by omega)]
  · intro s hsw hm hs
    unfold rxControl
    rw [if_pos ⟨hm, hs⟩, hsw]
    rw [if_pos rfl]

/-- Witness for `C10_sync_write_ack_copies`: a 4-word write acknowledgment
(word 1 = `0x40000000`) whose payload word 42 overwrites the buffer and
whose status 0 is stored; the async correlator with an outstanding write
leaves the buffer `[5]` unchanged. -/
theorem C10_sync_write_ack_copies_witness :
    (mdpReceive (fun _ => false) ⟨0, [5], 1, 9⟩ [3, 0x40000000, 42, 0]
        0 0 false false false).1 =
      RecvOut.regOut true ([3, 0x40000000, 42, 0].getD 0 0)
        ([3, 0x40000000, 42, 0].length * 4) ∧
    ((mdpReceive (fun _ => false) ⟨0, [5], 1, 9⟩ [3, 0x40000000, 42, 0]
        0 0 false false false).2).data = [42] ∧
    (rxControl
      { st0 with
        regReqWrite := true
        regBuff := [3, 0x40000000]
        regReqEntry := ⟨0, [5], 1, 9⟩ }
      [3, 0x40000000, 42, 0]).regReqEntry.data = [5] := by
  have h := C10_sync_write_ack_copies (fun _ => false) ⟨0, [5], 1, 9⟩
    [3, 0x40000000, 42, 0] 0 0 (by decide) rfl (by decide) (by decide)
  refine ⟨h.1, ?_, ?_⟩
  · have h2 := h.2.1
    simpa using h2
  · exact h.2.2.2 _ rfl (by decide) (by decide)

